import Mathlib

/-!
Verification development for the retrieval-augmented product-recommendation
engine of the `entropic-ecommerce` backend.

The definitions below are shallow embeddings of the Python sources

* `src/backend/app/services/neon_vector_service.py`
* `src/backend/app/services/vector_search_service.py`
* `src/backend/app/services/enhanced_rag_service.py`
* `src/backend/app/services/rag_service.py`

Python floats are modelled as exact rationals (`ℚ`); the one place where the
code can produce an IEEE NaN (the cosine-similarity quotient) is modelled
with an explicit `nan` constructor.  Python strings are modelled as Lean
`String`s, with all operations (lower-casing, substring test, splitting)
re-implemented structurally over `List Char` so that they compute by kernel
reduction.  External effects (the sentence-transformer embedding model, the
database, HTTP calls to the language backends) are modelled as explicit
inputs: the embedding store is a list of rows, the per-row similarity score
produced by the external embedding model is an oracle function, and each
HTTP interaction is an inductive outcome datatype.
-/

/-! ## Python string primitives -/

/-- Boolean prefix test on character lists (structural, kernel-computable). -/
def listPrefixOf : List Char → List Char → Bool
  | [], _ => true
  | _ :: _, [] => false
  | a :: as, b :: bs => a = b && listPrefixOf as bs

/-- Boolean contiguous-substring test on character lists; `listInfix sub s`
is the Python expression `sub in s` for strings. -/
def listInfix (sub : List Char) : List Char → Bool
  | [] => listPrefixOf sub []
  | c :: cs => listPrefixOf sub (c :: cs) || listInfix sub cs

/-- Python `sub in s` on strings. -/
def pyIn (sub s : String) : Bool := listInfix sub.toList s.toList

/-- Python `s.lower()` (ASCII-faithful). -/
def pyLower (s : String) : String := String.mk (s.toList.map Char.toLower)

/-- Python `s.strip()`: drop leading and trailing whitespace. -/
def pyStrip (s : String) : String :=
  String.mk ((((s.toList.dropWhile Char.isWhitespace).reverse).dropWhile
    Char.isWhitespace).reverse)

/-- Python `s.split()` (split on whitespace runs, no empty pieces). -/
def pySplitWs (s : String) : List String :=
  ((s.split Char.isWhitespace).filter (· ≠ ""))

/-- Helper for `pySetList`: keep the first occurrence of each string not
already seen. -/
def pySetListAux (seen : List String) : List String → List String
  | [] => []
  | a :: l =>
    if a ∈ seen then pySetListAux seen l
    else a :: pySetListAux (a :: seen) l

/-- Python `list(set(xs))` for strings.  CPython iterates a `set` in a
hash-determined order; we model it as first-occurrence-preserving
de-duplication.  Every property proved about it below (membership, length,
`Nodup`) is invariant under the choice of enumeration order. -/
def pySetList (l : List String) : List String := pySetListAux [] l

/-! ## C1: the cosine-similarity expression of the vector services

`neon_vector_service.py`, lines 283-286 (and identically
`vector_search_service.py`, lines 169-172):

    similarity = np.dot(query_embedding, stored_array) / (
        np.linalg.norm(query_embedding) * np.linalg.norm(stored_array)
    )

There is no guard on the norms.  Over IEEE floats, when either vector has
zero norm the expression is `0.0 / 0.0 = NaN` (numpy emits a
`RuntimeWarning`, not an exception).  We model the float result exactly:
`NpFloat.val num denomSq` stands for the real number `num / Real.sqrt
denomSq` with `denomSq > 0` (the square root itself is irrational and never
inspected by the claims), and `NpFloat.nan` is the NaN produced when the
denominator is zero. -/

/-- Exact model of the float produced by the cosine-similarity expression. -/
inductive NpFloat where
  | nan : NpFloat
  | val (num : ℚ) (denomSq : ℚ) : NpFloat
deriving DecidableEq

/-- `np.dot` on rational vectors. -/
def dotList (a b : List ℚ) : ℚ := (List.zipWith (· * ·) a b).sum

/-- Squared Euclidean norm; `np.linalg.norm v = Real.sqrt (normSq v)`. -/
def normSq (v : List ℚ) : ℚ := dotList v v

/-- The cosine-similarity expression exactly as the two vector services
compute it: `dot a b / (norm a * norm b)` with no zero-norm guard.  The
denominator `norm a * norm b` is zero iff `normSq a * normSq b = 0`, in
which case the float result is NaN (the numerator `dot a b` is then also
zero, so the IEEE quotient is `0/0`). -/
def cosineSimilarity (a b : List ℚ) : NpFloat :=
  if normSq a * normSq b = 0 then NpFloat.nan
  else NpFloat.val (dotList a b) (normSq a * normSq b)

/-- The sum of self-products of a rational list is non-negative. -/
theorem zipWith_self_sum_nonneg (xs : List ℚ) :
    0 ≤ (List.zipWith (· * ·) xs xs).sum := by
  induction xs with
  | nil => simp
  | cons z zs ih =>
    simp only [List.zipWith_cons_cons, List.sum_cons]
    exact add_nonneg (mul_self_nonneg z) ih

/-- A zero-norm rational vector is the all-zero vector, so its dot product
with anything is zero: the IEEE quotient for a zero-norm operand really is
`0/0`, i.e. NaN, never an `inf`. -/
theorem dotList_eq_zero_of_normSq_eq_zero (a b : List ℚ) (h : normSq a = 0) :
    dotList a b = 0 := by
  induction a generalizing b with
  | nil => simp [dotList]
  | cons x xs ih =>
    cases b with
    | nil => simp [dotList]
    | cons y ys =>
      have hx : x * x + (List.zipWith (· * ·) xs xs).sum = 0 := by
        simpa [normSq, dotList] using h
      have hxx : (0:ℚ) ≤ x * x := mul_self_nonneg x
      have hss : (0:ℚ) ≤ (List.zipWith (· * ·) xs xs).sum :=
        zipWith_self_sum_nonneg xs
      have hx0 : x = 0 := by
        have : x * x = 0 := le_antisymm (by linarith) hxx
        exact mul_self_eq_zero.mp this
      have hrest : normSq xs = 0 := by
        have hsum : (List.zipWith (· * ·) xs xs).sum = 0 := by nlinarith
        simpa [normSq, dotList] using hsum
      simp only [dotList, List.zipWith_cons_cons, List.sum_cons]
      have hih := ih ys hrest
      simp only [dotList] at hih
      simp [hx0, hih]

/-- C1 (code bug): evaluated at the failing input — a zero query vector
against the first standard basis vector — the similarity the code computes
is NaN, and NaN is not the value `0` that the specification demands
(`NpFloat.val 0 d` is the representation of the real number `0`).  No
exception is raised: `cosineSimilarity` is total, matching numpy, which
only emits a warning for `0.0/0.0`. -/
theorem c1_zero_norm_similarity_is_nan_not_zero :
    cosineSimilarity [0, 0, 0] [1, 0, 0] = NpFloat.nan ∧
    ∀ d : ℚ, cosineSimilarity [0, 0, 0] [1, 0, 0] ≠ NpFloat.val 0 d := by
  have h : cosineSimilarity [0, 0, 0] [1, 0, 0] = NpFloat.nan := by
    norm_num [cosineSimilarity, normSq, dotList]
  exact ⟨h, fun d hd => by rw [h] at hd; exact NpFloat.noConfusion hd⟩

/-! ## Data model

Product rows of the `product_embeddings` table and the formatted search
results that `search_similar_products` returns.  The embedding vector of a
row and the query embedding are produced by the external sentence
transformer; at query time the only thing the orchestration code ever reads
from them is the (float) cosine similarity, so the similarity of a stored
row against a query string is abstracted as an oracle
`sim : String → EmbRow → Option ℚ`, where `none` models the two cases in
which the code silently skips a row: a per-row exception (caught by the
`try/except ... continue`) or a NaN similarity, which fails the
`similarity >= threshold` test exactly as a missing value does. -/

/-- A row of the `product_embeddings` table (`neon_vector_service.py`,
lines 40-52); the SQL query only selects rows whose embedding is non-null,
and rows whose stored embedding fails to parse are skipped via the
similarity oracle. -/
structure EmbRow where
  productId : Nat
  name : String
  category : String
  description : String
  price : ℚ
deriving DecidableEq

/-- A formatted search result (`neon_vector_service.py`, lines 290-304).
The `metadata` sub-dictionary (search query echo, wall-clock timestamp,
method tag) is not modelled: no claim reads it and the timestamp is
real-time dependent. -/
structure RankedProduct where
  id : Nat
  name : String
  description : String
  category : String
  price : ℚ
  brand : String
  imageUrl : String
  similarity : ℚ
deriving DecidableEq

/-- Formatting of a matching row (`neon_vector_service.py`, lines 290-304):
`brand` is the constant `"Unknown"` and `image_url` the empty string. -/
def mkRankedProduct (r : EmbRow) (s : ℚ) : RankedProduct :=
  { id := r.productId, name := r.name, description := r.description,
    category := r.category, price := r.price, brand := "Unknown",
    imageUrl := "", similarity := s }

/-- `NeonVectorService.search_similar_products` (lines 232-323): SQL-side
category filter (case-insensitive equality) and inclusive price-range
filter, then per-row similarity, the `similarity >= threshold` cut, a
stable sort descending by similarity (`list.sort(key=..., reverse=True)`)
and truncation to `limit`. -/
def searchSimilarProducts (rows : List EmbRow) (sim : String → EmbRow → Option ℚ)
    (query : String) (limit : Nat) (threshold : ℚ)
    (categoryFilter : Option String) (priceRange : Option (ℚ × ℚ)) :
    List RankedProduct :=
  let rows1 : List EmbRow := match categoryFilter with
    | some c => rows.filter (fun r => pyLower r.category = pyLower c)
    | none => rows
  let rows2 : List EmbRow := match priceRange with
    | some pr => rows1.filter (fun r => decide (pr.1 ≤ r.price) && decide (r.price ≤ pr.2))
    | none => rows1
  let scored := rows2.filterMap (fun r =>
    (sim query r).bind (fun s =>
      if threshold ≤ s then some (mkRankedProduct r s) else none))
  (scored.mergeSort (fun a b => decide (b.similarity ≤ a.similarity))).take limit

/-! ## Intent analysis (`enhanced_rag_service.py`, lines 129-268) -/

/-- Query entities (`_extract_entities`, lines 174-229). -/
structure Entities where
  category : Option String
  brand : Option String
  priceRange : Option (Nat × Nat)
  hasSizeRequirement : Bool
  hasColorRequirement : Bool
deriving DecidableEq

/-- Result of `_analyze_customer_intent` (lines 129-172). -/
structure IntentAnalysis where
  primaryIntent : String
  allIntents : List String
  entities : Entities
  urgency : String
  queryComplexity : String
deriving DecidableEq

/-- Result of `_extract_search_parameters` (lines 231-268). -/
structure SearchParams where
  qualityPreference : String
  genderTarget : Option String
  usageContext : Option String
  sortPreference : String
deriving DecidableEq

/-! ### The price-range regular expressions

`_extract_entities` runs `re.search` with the patterns
`under \$?(\d+)`, `below \$?(\d+)`, `less than \$?(\d+)`,
`between \$?(\d+) and \$?(\d+)`, `from \$?(\d+) to \$?(\d+)`,
`\$?(\d+) to \$?(\d+)` in this order, taking the first pattern that
matches.  These patterns need no backtracking (a greedy digit run can never
absorb the following literal), so they are implemented as a left-to-right
scan over start positions, which is exactly the leftmost-match semantics of
`re.search`. -/

/-- Greedy run of decimal digits at the head of the list. -/
def readDigits : List Char → (List Char × List Char)
  | [] => ([], [])
  | c :: r =>
    if c.isDigit then
      let p := readDigits r
      (c :: p.1, p.2)
    else ([], c :: r)

/-- Digits to the number they denote. -/
def digitsToNat (ds : List Char) : Nat :=
  ds.foldl (fun n c => n * 10 + (c.toNat - 48)) 0

/-- `\$?`: an optional dollar sign. -/
def skipDollar : List Char → List Char
  | '$' :: r => r
  | cs => cs

/-- Consume an exact literal, or fail. -/
def dropLit : List Char → List Char → Option (List Char)
  | [], cs => some cs
  | _ :: _, [] => none
  | l :: ls, c :: cs => if l = c then dropLit ls cs else none

/-- `\$?(\d+)`: optional dollar then at least one digit, greedily. -/
def matchNumAfter (cs : List Char) : Option (Nat × List Char) :=
  let cs1 := skipDollar cs
  let p := readDigits cs1
  if p.1.isEmpty then none else some (digitsToNat p.1, p.2)

/-- `lit \$?(\d+)` anchored at the current position. -/
def matchOneNumAt (lit : String) (cs : List Char) : Option Nat :=
  (dropLit lit.toList cs).bind fun r => (matchNumAfter r).map (·.1)

/-- `lit \$?(\d+) mid \$?(\d+)` anchored at the current position
(`lit` may be empty, as in the bare `\$?(\d+) to \$?(\d+)` pattern). -/
def matchTwoNumAt (lit mid : String) (cs : List Char) : Option (Nat × Nat) :=
  (dropLit lit.toList cs).bind fun r =>
    (matchNumAfter r).bind fun p =>
      (dropLit mid.toList p.2).bind fun r3 =>
        (matchNumAfter r3).map (fun q => (p.1, q.1))

/-- `re.search`: try the anchored matcher at each start position, leftmost
first. -/
def searchAt {α : Type} (m : List Char → Option α) : List Char → Option α
  | [] => m []
  | c :: cs =>
    match m (c :: cs) with
    | some x => some x
    | none => searchAt m cs

/-- The price-range extraction of `_extract_entities` (lines 201-221):
first matching pattern wins; single-bound patterns yield `(0, n)`. -/
def extractPriceRange (ql : String) : Option (Nat × Nat) :=
  let cs := ql.toList
  match searchAt (matchOneNumAt "under ") cs with
  | some n => some (0, n)
  | none => match searchAt (matchOneNumAt "below ") cs with
    | some n => some (0, n)
    | none => match searchAt (matchOneNumAt "less than ") cs with
      | some n => some (0, n)
      | none => match searchAt (matchTwoNumAt "between " " and ") cs with
        | some p => some p
        | none => match searchAt (matchTwoNumAt "from " " to ") cs with
          | some p => some p
          | none => searchAt (matchTwoNumAt "" " to ") cs

/-- Category keyword table (`_extract_entities`, lines 177-185), in source
order; the first matching category wins (`break`). -/
def categoryKeywords : List (String × List String) := [
  ("electronics", ["laptop", "phone", "computer", "tablet", "electronics", "smartphone", "device"]),
  ("clothing", ["shirt", "pants", "dress", "jacket", "clothing", "apparel", "wear"]),
  ("shoes", ["shoes", "sneakers", "boots", "sandals", "footwear", "running"]),
  ("sports", ["sports", "fitness", "exercise", "gym", "athletic", "workout"]),
  ("home", ["home", "kitchen", "furniture", "decor", "appliances"]),
  ("beauty", ["beauty", "makeup", "skincare", "cosmetics", "fragrance"])]

/-- Brand list (`_extract_entities`, line 194). -/
def knownBrands : List String :=
  ["nike", "adidas", "apple", "samsung", "zara", "puma", "levis", "under armour"]

/-- `_extract_entities` (lines 174-229); its argument is the already
lower-cased query. -/
def extractEntities (ql : String) : Entities :=
  { category := (categoryKeywords.find? (fun c => c.2.any (fun k => pyIn k ql))).map (·.1),
    brand := knownBrands.find? (fun b => pyIn b ql),
    priceRange := extractPriceRange ql,
    hasSizeRequirement := ["small", "medium", "large", "xl", "size"].any (fun w => pyIn w ql),
    hasColorRequirement := ["red", "blue", "black", "white", "green"].any (fun w => pyIn w ql) }

/-- Intent keyword table (`_analyze_customer_intent`, lines 142-150), in
the source dictionary insertion order, which CPython preserves. -/
def intentPatterns : List (String × List String) := [
  ("product_search", ["need", "want", "looking for", "find", "search", "show me"]),
  ("comparison", ["compare", "vs", "versus", "difference", "better", "which"]),
  ("recommendation", ["recommend", "suggest", "best", "top", "should i"]),
  ("price_inquiry", ["price", "cost", "cheap", "expensive", "budget", "under", "below"]),
  ("feature_inquiry", ["features", "specs", "specifications", "details", "about"]),
  ("availability", ["available", "in stock", "delivery", "shipping", "when"]),
  ("support", ["help", "support", "how to", "problem", "issue", "not working"])]

/-- Urgency keywords (line 163). -/
def urgencyIndicators : List String :=
  ["urgent", "asap", "immediately", "right now", "quickly"]

/-- `_analyze_customer_intent` (lines 129-172). -/
def analyzeCustomerIntent (query : String) : IntentAnalysis :=
  let ql := pyLower query
  let detected := (intentPatterns.filter (fun ip => ip.2.any (fun p => pyIn p ql))).map (·.1)
  { primaryIntent := detected.head?.getD "general_inquiry",
    allIntents := detected,
    entities := extractEntities ql,
    urgency := if urgencyIndicators.any (fun w => pyIn w ql) then "high" else "normal",
    queryComplexity := if 10 < (pySplitWs query).length then "complex" else "simple" }

/-- Usage-context table (`_extract_search_parameters`, lines 250-255). -/
def usageContexts : List (String × List String) := [
  ("work", ["work", "office", "professional", "business"]),
  ("casual", ["casual", "everyday", "daily", "regular"]),
  ("sports", ["running", "gym", "fitness", "exercise", "athletic"]),
  ("formal", ["formal", "elegant", "dressy", "fancy"])]

/-- `_extract_search_parameters` (lines 231-268). -/
def extractSearchParameters (query : String) : SearchParams :=
  let ql := pyLower query
  let qualityHigh := ["best", "premium", "high quality", "top", "excellent"].any (fun w => pyIn w ql)
  let qualityBudget := ["cheap", "budget", "affordable", "low cost"].any (fun w => pyIn w ql)
  let gender :=
    if ["men", "male", "guys", "him"].any (fun w => pyIn w ql) then some "men"
    else if ["women", "female", "ladies", "her"].any (fun w => pyIn w ql) then some "women"
    else if ["kids", "children", "child"].any (fun w => pyIn w ql) then some "kids"
    else none
  { qualityPreference :=
      if qualityHigh then "high" else if qualityBudget then "budget" else "standard",
    genderTarget := gender,
    usageContext := (usageContexts.find? (fun u => u.2.any (fun k => pyIn k ql))).map (·.1),
    sortPreference :=
      if pyIn "cheap" ql then "price_low"
      else if pyIn "best" ql then "rating" else "relevance" }

/-! ## C4: primary intent is the first match in the fixed priority order -/

/-- The fixed priority order of intent categories exactly as the
specification documents it. -/
def intentPriorityOrder : List String :=
  ["product_search", "comparison", "recommendation", "price_inquiry",
   "feature_inquiry", "availability", "support"]

/-- Whether a query (already lower-cased) matches the keyword set of the
named intent category, looked up in the keyword table. -/
def intentMatches (ql : String) (cat : String) : Bool :=
  (intentPatterns.find? (fun ip => ip.1 = cat)).elim false
    (fun ip => ip.2.any (fun p => pyIn p ql))

/-- `find?` is the head of `filter`. -/
theorem find?_eq_head?_filter {α : Type} (p : α → Bool) (xs : List α) :
    xs.find? p = (xs.filter p).head? := by
  induction xs with
  | nil => rfl
  | cons x r ih =>
    by_cases h : p x
    · rw [List.find?_cons_of_pos _ h, List.filter_cons_of_pos h]
      rfl
    · rw [List.find?_cons_of_neg _ (by simpa using h),
        List.filter_cons_of_neg (by simpa using h), ih]

/-- For an association list with no duplicate keys, filtering the key list
by the looked-up predicate agrees with filtering the association list and
projecting to keys. -/
theorem filter_keys_eq_map_filter (l : List (String × List String))
    (q : String × List String → Bool) (hnd : (l.map (·.1)).Nodup) :
    (l.map (·.1)).filter (fun k => (l.find? (fun ip => ip.1 = k)).elim false q)
      = (l.filter q).map (·.1) := by
  induction l with
  | nil => rfl
  | cons x r ih =>
    simp only [List.map_cons, List.nodup_cons] at hnd
    have hfx : (x :: r).find? (fun ip => ip.1 = x.1) = some x :=
      List.find?_cons_of_pos _ (by simp)
    have hhead : (((x :: r).find? (fun ip => ip.1 = x.1)).elim false q) = q x := by
      rw [hfx]
      rfl
    have htail : (r.map (·.1)).filter
        (fun k => (((x :: r).find? (fun ip => ip.1 = k)).elim false q))
        = (r.map (·.1)).filter
        (fun k => ((r.find? (fun ip => ip.1 = k)).elim false q)) := by
      apply List.filter_congr
      intro k hk
      have hne : ¬ (x.1 = k) := fun he => hnd.1 (he ▸ hk)
      rw [List.find?_cons_of_neg _ (by simpa using hne)]
    rw [List.map_cons, List.filter_cons, hhead, htail, ih hnd.2, List.filter_cons]
    by_cases hq : q x
    · simp [hq]
    · simp [hq]

/-- C4 (confirmed): for every query string, the primary intent computed by
`_analyze_customer_intent` is the first category in the fixed priority
order `product_search, comparison, recommendation, price_inquiry,
feature_inquiry, availability, support` whose keyword set matches the
lower-cased query, with default `general_inquiry` when none matches, and
`all_intents` retains exactly the matching categories in that order. -/
theorem c4_primary_intent_is_first_match_in_priority_order :
    ∀ query : String,
      (analyzeCustomerIntent query).primaryIntent
        = ((intentPriorityOrder.find? (intentMatches (pyLower query))).getD "general_inquiry")
      ∧ (analyzeCustomerIntent query).allIntents
        = intentPriorityOrder.filter (intentMatches (pyLower query)) := by
  intro query
  have hnd : (intentPatterns.map (·.1)).Nodup := by decide
  have hord : intentPriorityOrder = intentPatterns.map (·.1) := by rfl
  have hfk := filter_keys_eq_map_filter intentPatterns
    (fun ip => ip.2.any (fun p => pyIn p (pyLower query))) hnd
  have hmatch : intentPriorityOrder.filter (intentMatches (pyLower query))
      = (intentPatterns.filter
          (fun ip => ip.2.any (fun p => pyIn p (pyLower query)))).map (·.1) := by
    rw [hord, ← hfk]
    exact List.filter_congr (fun k _ => rfl)
  constructor
  · show ((intentPatterns.filter
        (fun ip => ip.2.any (fun p => pyIn p (pyLower query)))).map (·.1)).head?.getD
        "general_inquiry" = _
    rw [find?_eq_head?_filter, hmatch]
  · show ((intentPatterns.filter
        (fun ip => ip.2.any (fun p => pyIn p (pyLower query)))).map (·.1)) = _
    exact hmatch.symm

/-! ## C6: query expansion (`_expand_query`, lines 317-380) -/

/-- Synonym table (lines 324-348), in source dictionary insertion order. -/
def synonymTable : List (String × List String) := [
  ("computer", ["laptop", "pc", "notebook", "ultrabook", "gaming laptop"]),
  ("laptop", ["computer", "notebook", "ultrabook", "pc"]),
  ("pc", ["computer", "laptop", "desktop"]),
  ("music", ["headphones", "audio", "speaker", "sound", "wireless headphones", "bluetooth speaker"]),
  ("audio", ["headphones", "speaker", "sound", "music", "wireless headphones"]),
  ("listen", ["headphones", "audio", "speaker", "music", "wireless headphones"]),
  ("sound", ["headphones", "speaker", "audio", "music", "wireless headphones"]),
  ("hear", ["headphones", "audio", "speaker", "music"]),
  ("gaming", ["mouse", "keyboard", "laptop", "monitor", "headphones"]),
  ("game", ["gaming", "mouse", "keyboard", "laptop", "monitor"]),
  ("phone", ["smartphone", "mobile", "cell phone"]),
  ("smartphone", ["phone", "mobile"]),
  ("wireless", ["headphones", "mouse", "speaker", "bluetooth"]),
  ("bluetooth", ["headphones", "speaker", "wireless"])]

/-- Category-based expansion (lines 355-367). -/
def categoryExpansion (baseQuery : String) (category : Option String) : List String :=
  if category = some "electronics" then
    if pyIn "laptop" baseQuery then ["computer", "notebook", "ultrabook"]
    else if pyIn "phone" baseQuery then ["smartphone", "mobile", "cell phone"]
    else []
  else if category = some "clothing" then
    if pyIn "shirt" baseQuery then ["top", "blouse", "tee"] else []
  else if category = some "shoes" then
    if pyIn "running" baseQuery then ["athletic shoes", "sneakers", "trainers"] else []
  else []

/-- Intent-based expansion (lines 369-376); note that it interpolates the
original (un-lowercased) query string. -/
def intentExpansion (query : String) (primaryIntent : String) : List String :=
  if primaryIntent = "recommendation" then
    ["best " ++ query, "top rated " ++ query]
  else if primaryIntent = "price_inquiry" then
    ["affordable " ++ query, "budget " ++ query]
  else []

/-- `_expand_query` (lines 317-380): synonym hits are collected in table
order, then category-based and intent-based expansions are appended, the
list is de-duplicated via `list(set(...))` and truncated to 5. -/
def expandQuery (query : String) (intent : IntentAnalysis) : List String :=
  let baseQuery := pyLower query
  let expanded := synonymTable.foldl
    (fun acc ts => if pyIn ts.1 baseQuery then acc ++ ts.2 else acc) []
  let expanded := expanded ++ categoryExpansion baseQuery intent.entities.category
  let expanded := expanded ++ intentExpansion query intent.primaryIntent
  (pySetList expanded).take 5

/-- `pySetListAux` yields a duplicate-free list avoiding everything seen. -/
theorem pySetListAux_nodup_and_avoids (l : List String) :
    ∀ seen : List String,
      (pySetListAux seen l).Nodup ∧ ∀ x ∈ pySetListAux seen l, x ∉ seen := by
  induction l with
  | nil => intro seen; simp [pySetListAux]
  | cons a l ih =>
    intro seen
    by_cases h : a ∈ seen
    · simp only [pySetListAux, if_pos h]
      exact ⟨(ih seen).1, fun x hx => (ih seen).2 x hx⟩
    · simp only [pySetListAux, if_neg h]
      obtain ⟨hnd, hmem⟩ := ih (a :: seen)
      refine ⟨List.nodup_cons.mpr ⟨fun hax => ?_, hnd⟩, ?_⟩
      · exact (hmem a hax) (List.mem_cons_self a seen)
      · intro x hx hxseen
        rcases List.mem_cons.mp hx with rfl | hx'
        · exact h hxseen
        · exact (hmem x hx') (List.mem_cons_of_mem a hxseen)

/-- The de-duplication model is duplicate-free. -/
theorem pySetList_nodup (l : List String) : (pySetList l).Nodup :=
  (pySetListAux_nodup_and_avoids l []).1

/-- C6 counterexample: for the query `"smartphone"` (with the intent the
analyzer itself computes for it), the expansion output contains the literal
original query string — the substring rule fires on `"phone"` and
`"smartphone"`, whose synonym lists re-introduce `"smartphone"`, and
nothing removes the original query.  Because only four distinct strings are
produced, this membership is independent of the CPython set enumeration
order. -/
theorem c6_counterexample_smartphone_in_own_expansion :
    "smartphone" ∈ expandQuery "smartphone" (analyzeCustomerIntent "smartphone") := by
  decide

/-- C6 (corrected): the expansion output is a de-duplicated list of at most
5 strings, but it can contain the literal original query (see the
counterexample); the source applies no filter against the original query. -/
theorem c6_amended_expansion_deduplicated_and_bounded :
    ∀ (query : String) (intent : IntentAnalysis),
      (expandQuery query intent).Nodup ∧ (expandQuery query intent).length ≤ 5 := by
  intro query intent
  constructor
  · exact (pySetList_nodup _).sublist (List.take_sublist 5 _)
  · calc (expandQuery query intent).length
        = min 5 (pySetList _).length := List.length_take 5 _
      _ ≤ 5 := min_le_left _ _

/-! ## Retrieval orchestration (`_enhanced_product_retrieval`, lines 270-315,
and `_apply_intent_based_filtering`, lines 382-414)

The vector-search dependency (`self.vector_service.search_similar_products`)
is a parameter of type `SearchFun`; the concrete instance used by the
claims about real searches is `searchSimilarProducts rows sim`. -/

/-- The type of the vector-search dependency: query, limit, threshold,
category filter, price range. -/
def SearchFun : Type :=
  String → Nat → ℚ → Option String → Option (ℚ × ℚ) → List RankedProduct

/-- Name-based gender condition (lines 406-411).  Note the substring test:
every product name containing "women" also matches the target "men". -/
def genderNameMatch (genderTarget : String) (productNameLower : String) : Bool :=
  (genderTarget = "women" && ["women", "ladies", "female"].any (fun w => pyIn w productNameLower))
  || (genderTarget = "men" && ["men", "male", "guys"].any (fun w => pyIn w productNameLower))
  || (genderTarget ≠ "women" && genderTarget ≠ "men")

/-- The quality re-rank step of `_apply_intent_based_filtering` (lines
391-398): a stable price sort, descending for "high" (CPython `sorted`
with `reverse=True` is stable, as is `List.mergeSort`), ascending for
"budget", identity otherwise. -/
def qualityRerank (qp : String) (filtered : List RankedProduct) : List RankedProduct :=
  if qp = "high" then filtered.mergeSort (fun a b => decide (b.price ≤ a.price))
  else if qp = "budget" then filtered.mergeSort (fun a b => decide (a.price ≤ b.price))
  else filtered

/-- The gender step of `_apply_intent_based_filtering` (lines 400-412): an
optional name-based filter that falls back to the unfiltered list when the
filter would empty the results. -/
def genderStep (gt : Option String) (filtered : List RankedProduct) : List RankedProduct :=
  match gt with
  | none => filtered
  | some g =>
    let genderFiltered := filtered.filter (fun p => genderNameMatch g (pyLower p.name))
    if genderFiltered.isEmpty then filtered else genderFiltered

/-- `_apply_intent_based_filtering` (lines 382-414): the empty list is
returned unchanged, otherwise the quality re-rank then the gender step.
The `intent` argument is passed by the caller but unused by the body, as in
the source. -/
def applyIntentBasedFiltering (products : List RankedProduct)
    (intent : IntentAnalysis) (sp : SearchParams) : List RankedProduct :=
  if products.isEmpty then products
  else genderStep sp.genderTarget (qualityRerank sp.qualityPreference products)

/-- The inner merge of `_enhanced_product_retrieval` (lines 297-303): walk
the additional products in order, appending each one whose id is not
already present (`existing_ids` starts as the ids of the accumulated list
and grows as products are appended). -/
def mergeAdditional (products additional : List RankedProduct) : List RankedProduct :=
  additional.foldl
    (fun acc p => if p.id ∈ acc.map (·.id) then acc else acc ++ [p])
    products

/-- The expansion loop of `_enhanced_product_retrieval` (lines 289-306):
one additional search per expanded query with k = 5 and threshold*0.6,
merged, breaking out as soon as the merged count reaches `limit`. -/
def expansionLoop (search : SearchFun) (limit : Nat) (threshold : ℚ) :
    List String → List RankedProduct → List RankedProduct
  | [], products => products
  | e :: rest, products =>
    let additional := search e 5 (threshold * (3/5)) none none
    let merged := mergeAdditional products additional
    if limit ≤ merged.length then merged
    else expansionLoop search limit threshold rest merged

/-- `tuple(intent["entities"]["price_range"])` coerced to the float pair
the search layer compares prices against. -/
def priceRangeQ (e : Entities) : Option (ℚ × ℚ) :=
  e.priceRange.map (fun pr => ((pr.1 : ℚ), (pr.2 : ℚ)))

/-- `_enhanced_product_retrieval` (lines 270-315): primary search with
k = limit*2 and threshold*0.8 under the intent category and price filters;
expansion loop only when the primary pass found fewer than 3 products;
intent-based filtering; truncation to `limit`.  The surrounding
`try/except` returns `[]` on an exception, which cannot occur here because
every dependency of the embedded body is total. -/
def enhancedProductRetrieval (search : SearchFun) (query : String)
    (intent : IntentAnalysis) (sp : SearchParams) (limit : Nat) (threshold : ℚ) :
    List RankedProduct :=
  let products := search query (limit * 2) (threshold * (4/5))
    intent.entities.category (priceRangeQ intent.entities)
  let products :=
    if products.length < 3 then
      expansionLoop search limit threshold (expandQuery query intent) products
    else products
  (applyIntentBasedFiltering products intent sp).take limit

/-! ### C2: the spec-side description of the same algorithm -/

/-- De-duplication by product id, first occurrence winning, skipping ids
already seen. -/
def dedupByIdAux (seen : List Nat) : List RankedProduct → List RankedProduct
  | [] => []
  | p :: rest =>
    if p.id ∈ seen then dedupByIdAux seen rest
    else p :: dedupByIdAux (p.id :: seen) rest

/-- One merge step in the words of the claim: the batch is merged into the
accumulated set de-duplicating by product id with the first occurrence
winning. -/
def specMergeBatch (acc batch : List RankedProduct) : List RankedProduct :=
  acc ++ dedupByIdAux (acc.map (·.id)) batch

/-- The expansion stage in the words of the claim: one search per expansion
(k = 5, min similarity threshold*0.6), merged, stopping early once the
merged count reaches the limit. -/
def specExpansionLoop (search : SearchFun) (limit : Nat) (threshold : ℚ) :
    List String → List RankedProduct → List RankedProduct
  | [], acc => acc
  | e :: rest, acc =>
    let merged := specMergeBatch acc (search e 5 (threshold * (3/5)) none none)
    if limit ≤ merged.length then merged
    else specExpansionLoop search limit threshold rest merged

/-- Stages 1-2 of the documented retrieval algorithm, in the words of claim
C2: a primary pass with k = 2*limit and min similarity threshold*0.8 under
the intent category and price-range filters, then, only if the primary
count is below 3, the expansion stage. -/
def specMergedRetrieval (search : SearchFun) (query : String)
    (intent : IntentAnalysis) (limit : Nat) (threshold : ℚ) : List RankedProduct :=
  let primary := search query (2 * limit) (threshold * (4/5))
    intent.entities.category (priceRangeQ intent.entities)
  if primary.length < 3 then
    specExpansionLoop search limit threshold (expandQuery query intent) primary
  else primary

/-- `dedupByIdAux` only depends on the membership set of `seen`. -/
theorem dedupByIdAux_congr (l : List RankedProduct) :
    ∀ s₁ s₂ : List Nat, (∀ x, x ∈ s₁ ↔ x ∈ s₂) →
      dedupByIdAux s₁ l = dedupByIdAux s₂ l := by
  induction l with
  | nil => intro _ _ _; rfl
  | cons p rest ih =>
    intro s₁ s₂ hiff
    simp only [dedupByIdAux]
    by_cases h : p.id ∈ s₁
    · rw [if_pos h, if_pos ((hiff p.id).mp h)]
      exact ih s₁ s₂ hiff
    · rw [if_neg h, if_neg (fun h2 => h ((hiff p.id).mpr h2))]
      refine congrArg (p :: ·) (ih _ _ ?_)
      intro x
      simp only [List.mem_cons]
      exact or_congr Iff.rfl (hiff x)

/-- The fold of the source merge equals the spec-side merge. -/
theorem mergeAdditional_eq_specMergeBatch (batch : List RankedProduct) :
    ∀ acc, mergeAdditional acc batch = specMergeBatch acc batch := by
  induction batch with
  | nil => intro acc; simp [mergeAdditional, specMergeBatch, dedupByIdAux]
  | cons p rest ih =>
    intro acc
    show List.foldl _ (if p.id ∈ acc.map (·.id) then acc else acc ++ [p]) rest
      = acc ++ dedupByIdAux (acc.map (·.id)) (p :: rest)
    simp only [dedupByIdAux]
    by_cases h : p.id ∈ acc.map (·.id)
    · rw [if_pos h, if_pos h]
      exact ih acc
    · rw [if_neg h, if_neg h]
      have hcongr : dedupByIdAux ((acc ++ [p]).map (·.id)) rest
          = dedupByIdAux (p.id :: acc.map (·.id)) rest := by
        apply dedupByIdAux_congr
        intro x
        simp [List.mem_append, List.mem_cons, or_comm]
      calc List.foldl _ (acc ++ [p]) rest
          = mergeAdditional (acc ++ [p]) rest := rfl
        _ = specMergeBatch (acc ++ [p]) rest := ih (acc ++ [p])
        _ = (acc ++ [p]) ++ dedupByIdAux ((acc ++ [p]).map (·.id)) rest := rfl
        _ = acc ++ (p :: dedupByIdAux (p.id :: acc.map (·.id)) rest) := by
            rw [hcongr, List.append_assoc]
            rfl

/-- The source expansion loop equals the spec-side loop. -/
theorem expansionLoop_eq_spec (search : SearchFun) (limit : Nat) (threshold : ℚ) :
    ∀ (es : List String) (acc : List RankedProduct),
      expansionLoop search limit threshold es acc
        = specExpansionLoop search limit threshold es acc := by
  intro es
  induction es with
  | nil => intro acc; rfl
  | cons e rest ih =>
    intro acc
    show (let merged := mergeAdditional acc (search e 5 (threshold * (3/5)) none none);
      if limit ≤ merged.length then merged
      else expansionLoop search limit threshold rest merged) = _
    rw [mergeAdditional_eq_specMergeBatch]
    by_cases h : limit ≤ (specMergeBatch acc (search e 5 (threshold * (3/5)) none none)).length
    · simp only [specExpansionLoop, if_pos h]
    · simp only [specExpansionLoop, if_neg h]
      exact ih _

/-- C2 (confirmed): for every search dependency, query, intent, search
parameters, limit and threshold, the retrieval result is exactly the
documented pipeline — the spec-worded primary+expansion stages
(`specMergedRetrieval`: k = 2*limit with min similarity threshold*0.8 and
the intent filters; expansions only when the primary count is below 3, at
most 5 of them since the expansion list is capped at 5, each with k = 5 and
min similarity threshold*0.6, merged first-occurrence-wins by product id
with early stop at the limit), followed by the documented intent-based
re-rank stage and final truncation to the limit. -/
theorem c2_retrieval_follows_documented_stages :
    ∀ (search : SearchFun) (query : String) (intent : IntentAnalysis)
      (sp : SearchParams) (limit : Nat) (threshold : ℚ),
      enhancedProductRetrieval search query intent sp limit threshold
        = (applyIntentBasedFiltering
            (specMergedRetrieval search query intent limit threshold) intent sp).take limit
      ∧ (expandQuery query intent).length ≤ 5 := by
  intro search query intent sp limit threshold
  constructor
  · simp only [enhancedProductRetrieval, specMergedRetrieval, Nat.mul_comm limit 2,
      expansionLoop_eq_spec]
  · show ((pySetList _).take 5).length ≤ 5
    rw [List.length_take]
    exact min_le_left _ _

/-! ## C3: ordering of retrieval results -/

/-- A stable descending `mergeSort` by a rational key is pairwise
descending. -/
theorem mergeSort_pairwise_key_ge (f : RankedProduct → ℚ) (l : List RankedProduct) :
    (l.mergeSort (fun a b => decide (f b ≤ f a))).Pairwise (fun a b => f b ≤ f a) := by
  have h := @List.sorted_mergeSort RankedProduct (fun a b => decide (f b ≤ f a))
    (fun a b c hab hbc => by
      simp only [decide_eq_true_eq] at *
      exact le_trans hbc hab)
    (fun a b => by
      simp only [Bool.or_eq_true, decide_eq_true_eq]
      exact le_total (f b) (f a))
    l
  exact h.imp (fun hab => of_decide_eq_true hab)

/-- A stable ascending `mergeSort` by a rational key is pairwise
ascending. -/
theorem mergeSort_pairwise_key_le (f : RankedProduct → ℚ) (l : List RankedProduct) :
    (l.mergeSort (fun a b => decide (f a ≤ f b))).Pairwise (fun a b => f a ≤ f b) := by
  have h := @List.sorted_mergeSort RankedProduct (fun a b => decide (f a ≤ f b))
    (fun a b c hab hbc => by
      simp only [decide_eq_true_eq] at *
      exact le_trans hab hbc)
    (fun a b => by
      simp only [Bool.or_eq_true, decide_eq_true_eq]
      exact le_total (f a) (f b))
    l
  exact h.imp (fun hab => of_decide_eq_true hab)

/-- Each single vector search returns a list that is pairwise descending by
similarity (the sort at `neon_vector_service.py`, lines 311-313). -/
theorem searchSimilarProducts_pairwise_similarity (rows : List EmbRow)
    (sim : String → EmbRow → Option ℚ) (query : String) (limit : Nat)
    (threshold : ℚ) (cf : Option String) (pr : Option (ℚ × ℚ)) :
    (searchSimilarProducts rows sim query limit threshold cf pr).Pairwise
      (fun a b => b.similarity ≤ a.similarity) :=
  List.Pairwise.sublist (List.take_sublist _ _)
    (mergeSort_pairwise_key_ge (fun p => p.similarity) _)

/-- The gender step preserves any pairwise order: it keeps either the
whole list or an order-preserving filtering of it. -/
theorem genderStep_pairwise {r : RankedProduct → RankedProduct → Prop}
    (l : List RankedProduct) (hl : l.Pairwise r) (gt : Option String) :
    (genderStep gt l).Pairwise r := by
  cases gt with
  | none => exact hl
  | some g =>
    show (let genderFiltered := l.filter (fun p => genderNameMatch g (pyLower p.name));
      if genderFiltered.isEmpty then l else genderFiltered).Pairwise r
    by_cases hgf : (l.filter (fun p => genderNameMatch g (pyLower p.name))).isEmpty = true
    · simpa [hgf] using hl
    · simpa [hgf] using List.Pairwise.sublist (List.filter_sublist _) hl

/-- If the pairwise order holds both of the re-ranked list and of the input
list, it holds of the whole filtering stage. -/
theorem applyFilter_pairwise_of {r : RankedProduct → RankedProduct → Prop}
    (products : List RankedProduct) (intent : IntentAnalysis) (sp : SearchParams)
    (hin : products.Pairwise r)
    (hsort : (qualityRerank sp.qualityPreference products).Pairwise r) :
    (applyIntentBasedFiltering products intent sp).Pairwise r := by
  unfold applyIntentBasedFiltering
  by_cases he : products.isEmpty = true
  · rw [if_pos he]
    exact hin
  · rw [if_neg he]
    exact genderStep_pairwise _ hsort _

/-- With quality preference "high" the filtering stage returns a list that
is pairwise descending by price. -/
theorem applyFilter_pairwise_high (products : List RankedProduct)
    (intent : IntentAnalysis) (sp : SearchParams)
    (hq : sp.qualityPreference = "high") :
    (applyIntentBasedFiltering products intent sp).Pairwise
      (fun a b => b.price ≤ a.price) := by
  unfold applyIntentBasedFiltering
  by_cases he : products.isEmpty = true
  · rw [if_pos he]
    cases products with
    | nil => simp
    | cons p l => simp [List.isEmpty_cons] at he
  · rw [if_neg he]
    refine genderStep_pairwise _ ?_ _
    rw [qualityRerank, hq, if_pos rfl]
    exact mergeSort_pairwise_key_ge (fun p => p.price) _

/-- With quality preference "budget" the filtering stage returns a list
that is pairwise ascending by price. -/
theorem applyFilter_pairwise_budget (products : List RankedProduct)
    (intent : IntentAnalysis) (sp : SearchParams)
    (hq : sp.qualityPreference = "budget") :
    (applyIntentBasedFiltering products intent sp).Pairwise
      (fun a b => a.price ≤ b.price) := by
  unfold applyIntentBasedFiltering
  by_cases he : products.isEmpty = true
  · rw [if_pos he]
    cases products with
    | nil => simp
    | cons p l => simp [List.isEmpty_cons] at he
  · rw [if_neg he]
    refine genderStep_pairwise _ ?_ _
    rw [qualityRerank, hq, if_neg (by decide), if_pos rfl]
    exact mergeSort_pairwise_key_le (fun p => p.price) _

/-- With any other quality preference the filtering stage preserves the
incoming order. -/
theorem applyFilter_pairwise_preserved {r : RankedProduct → RankedProduct → Prop}
    (products : List RankedProduct) (intent : IntentAnalysis) (sp : SearchParams)
    (h1 : sp.qualityPreference ≠ "high") (h2 : sp.qualityPreference ≠ "budget")
    (hp : products.Pairwise r) :
    (applyIntentBasedFiltering products intent sp).Pairwise r := by
  refine applyFilter_pairwise_of products intent sp hp ?_
  rw [qualityRerank, if_neg h1, if_neg h2]
  exact hp

/-- C3 (amended): over the real vector search, a retrieval result is
pairwise descending by similarity only when the primary pass already found
at least 3 products (so no expansion merge occurred) and no quality re-rank
was triggered; when the quality re-rank is triggered the result is ordered
by price (descending for "high", ascending for "budget") in every case.
The original claim fails precisely because the expansion merge appends
later-found products after the primary ones without re-sorting (see the
counterexample). -/
theorem c3_amended_ordering_invariant :
    ∀ (rows : List EmbRow) (sim : String → EmbRow → Option ℚ) (query : String)
      (intent : IntentAnalysis) (sp : SearchParams) (limit : Nat) (threshold : ℚ),
      (sp.qualityPreference = "high" →
        (enhancedProductRetrieval (searchSimilarProducts rows sim) query intent sp
          limit threshold).Pairwise (fun a b => b.price ≤ a.price))
      ∧ (sp.qualityPreference = "budget" →
        (enhancedProductRetrieval (searchSimilarProducts rows sim) query intent sp
          limit threshold).Pairwise (fun a b => a.price ≤ b.price))
      ∧ (sp.qualityPreference = "standard" →
         3 ≤ (searchSimilarProducts rows sim query (limit * 2) (threshold * (4/5))
            intent.entities.category (priceRangeQ intent.entities)).length →
        (enhancedProductRetrieval (searchSimilarProducts rows sim) query intent sp
          limit threshold).Pairwise (fun a b => b.similarity ≤ a.similarity)) := by
  intro rows sim query intent sp limit threshold
  refine ⟨fun hq => ?_, fun hq => ?_, fun hq hlen => ?_⟩
  · exact List.Pairwise.sublist (List.take_sublist _ _)
      (applyFilter_pairwise_high _ intent sp hq)
  · exact List.Pairwise.sublist (List.take_sublist _ _)
      (applyFilter_pairwise_budget _ intent sp hq)
  · have hnot : ¬ ((searchSimilarProducts rows sim query (limit * 2) (threshold * (4/5))
        intent.entities.category (priceRangeQ intent.entities)).length < 3) :=
      not_lt.mpr hlen
    simp only [enhancedProductRetrieval]
    rw [if_neg hnot]
    refine List.Pairwise.sublist (List.take_sublist _ _) ?_
    refine applyFilter_pairwise_preserved _ intent sp ?_ ?_
      (searchSimilarProducts_pairwise_similarity rows sim query (limit * 2)
        (threshold * (4/5)) intent.entities.category (priceRangeQ intent.entities))
    · rw [hq]; decide
    · rw [hq]; decide

/-- Witness rows for the amended ordering theorem. -/
def c3wRow1 : EmbRow :=
  { productId := 1, name := "Desk Lamp", category := "home",
    description := "warm light", price := 3 }

/-- Witness rows for the amended ordering theorem. -/
def c3wRow2 : EmbRow :=
  { productId := 2, name := "Floor Lamp", category := "home",
    description := "tall", price := 2 }

/-- Witness rows for the amended ordering theorem. -/
def c3wRow3 : EmbRow :=
  { productId := 3, name := "Ceiling Lamp", category := "home",
    description := "bright", price := 1 }

/-- Witness store. -/
def c3wRows : List EmbRow := [c3wRow1, c3wRow2, c3wRow3]

/-- Witness similarity oracle: every row matches every query perfectly. -/
def c3wSim : String → EmbRow → Option ℚ := fun _ _ => some 1

/-- An empty entity record: no category, brand or price range detected. -/
def emptyEntities : Entities :=
  { category := none, brand := none, priceRange := none,
    hasSizeRequirement := false, hasColorRequirement := false }

/-- Witness intent: a plain general inquiry with no extracted entities. -/
def c3wIntent : IntentAnalysis :=
  { primaryIntent := "general_inquiry", allIntents := [],
    entities := emptyEntities,
    urgency := "normal", queryComplexity := "simple" }

/-- Witness for the amended C3 theorem: each of its three conclusions,
instantiated at concrete inputs with each hypothesis discharged. -/
theorem c3_amended_ordering_invariant_witness :
    ((enhancedProductRetrieval (searchSimilarProducts c3wRows c3wSim) "lamp" c3wIntent
        ⟨"high", none, none, "relevance"⟩ 5 0).Pairwise (fun a b => b.price ≤ a.price))
    ∧ ((enhancedProductRetrieval (searchSimilarProducts c3wRows c3wSim) "lamp" c3wIntent
        ⟨"budget", none, none, "relevance"⟩ 5 0).Pairwise (fun a b => a.price ≤ b.price))
    ∧ ((enhancedProductRetrieval (searchSimilarProducts c3wRows c3wSim) "lamp" c3wIntent
        ⟨"standard", none, none, "relevance"⟩ 5 0).Pairwise
          (fun a b => b.similarity ≤ a.similarity)) := by
  refine ⟨(c3_amended_ordering_invariant c3wRows c3wSim "lamp" c3wIntent
      ⟨"high", none, none, "relevance"⟩ 5 0).1 rfl,
    (c3_amended_ordering_invariant c3wRows c3wSim "lamp" c3wIntent
      ⟨"budget", none, none, "relevance"⟩ 5 0).2.1 rfl,
    (c3_amended_ordering_invariant c3wRows c3wSim "lamp" c3wIntent
      ⟨"standard", none, none, "relevance"⟩ 5 0).2.2 rfl ?_⟩
  norm_num [searchSimilarProducts, c3wRows, c3wSim, c3wIntent, priceRangeQ,
    emptyEntities, mkRankedProduct, c3wRow1, c3wRow2, c3wRow3, List.mergeSort,
    List.filterMap_cons, List.length_cons]

/-- Counterexample row: matched by the primary pass with similarity 1. -/
def c3Row1 : EmbRow :=
  { productId := 1, name := "Bluetooth Speaker", category := "electronics",
    description := "portable speaker", price := 40 }

/-- Counterexample row: matched by the primary pass with similarity 0. -/
def c3Row2 : EmbRow :=
  { productId := 2, name := "Speaker Stand", category := "electronics",
    description := "steel stand", price := 25 }

/-- Counterexample row: found only by the expansion searches, with
similarity 1, higher than the similarity of the second primary result. -/
def c3Row3 : EmbRow :=
  { productId := 3, name := "Studio Headphones", category := "electronics",
    description := "over-ear headphones", price := 120 }

/-- Counterexample store. -/
def c3Rows : List EmbRow := [c3Row1, c3Row2, c3Row3]

/-- Counterexample similarity oracle (cosine similarities of the external
embedding model): on the original query the first two rows score 1 and 0
and the third is negative; on every expanded query only the third row
scores 1. -/
def c3Sim : String → EmbRow → Option ℚ := fun q r =>
  if q = "find speaker for music" then
    (if r.productId = 1 then some 1
     else if r.productId = 2 then some 0
     else some (-1))
  else
    (if r.productId = 3 then some 1 else some (-1))

/-- The retrieval pipeline evaluated at the counterexample input: the
primary pass returns rows 1 and 2 (similarities 1 and 0), the expansion
loop appends row 3 (similarity 1) after them, and no re-rank happens. -/
theorem c3_retrieval_eval :
    enhancedProductRetrieval (searchSimilarProducts c3Rows c3Sim)
      "find speaker for music"
      (analyzeCustomerIntent "find speaker for music")
      (extractSearchParameters "find speaker for music") 5 0
    = [mkRankedProduct c3Row1 1, mkRankedProduct c3Row2 0,
       mkRankedProduct c3Row3 1] := by
  have hexp : expandQuery "find speaker for music"
      (analyzeCustomerIntent "find speaker for music")
      = ["headphones", "audio", "speaker", "sound", "wireless headphones"] := by
    decide
  have hcat : (analyzeCustomerIntent "find speaker for music").entities.category
      = none := by decide
  have hpr : priceRangeQ (analyzeCustomerIntent "find speaker for music").entities
      = none := by decide
  have hsp : extractSearchParameters "find speaker for music"
      = ⟨"standard", none, none, "relevance"⟩ := by decide
  have hprim : searchSimilarProducts c3Rows c3Sim "find speaker for music"
      (5 * 2) (0 * (4/5)) none none
      = [mkRankedProduct c3Row1 1, mkRankedProduct c3Row2 0] := by
    norm_num [searchSimilarProducts, c3Rows, c3Sim, c3Row1, c3Row2, c3Row3,
      mkRankedProduct, List.filterMap_cons, List.mergeSort]
  have hother : ∀ q : String, ¬ (q = "find speaker for music") →
      searchSimilarProducts c3Rows c3Sim q 5 (0 * (3/5)) none none
      = [mkRankedProduct c3Row3 1] := by
    intro q hq
    norm_num [searchSimilarProducts, c3Rows, c3Sim, c3Row1, c3Row2, c3Row3, hq,
      mkRankedProduct, List.filterMap_cons, List.mergeSort]
  have h1 := hother "headphones" (by decide)
  have h2 := hother "audio" (by decide)
  have h3 := hother "speaker" (by decide)
  have h4 := hother "sound" (by decide)
  have h5 := hother "wireless headphones" (by decide)
  have hloop : expansionLoop (searchSimilarProducts c3Rows c3Sim) 5 0
      ["headphones", "audio", "speaker", "sound", "wireless headphones"]
      [mkRankedProduct c3Row1 1, mkRankedProduct c3Row2 0]
      = [mkRankedProduct c3Row1 1, mkRankedProduct c3Row2 0,
         mkRankedProduct c3Row3 1] := by
    simp only [expansionLoop, h1, h2, h3, h4, h5]
    norm_num [mergeAdditional, mkRankedProduct, c3Row1, c3Row2, c3Row3]
  simp only [enhancedProductRetrieval, hcat, hpr, hexp, hsp, hprim, hloop]
  have hsh : (("standard" : String) = "high") = False := eq_false (by decide)
  have hsb : (("standard" : String) = "budget") = False := eq_false (by decide)
  norm_num [applyIntentBasedFiltering, genderStep, qualityRerank,
    mkRankedProduct, c3Row1, c3Row2, c3Row3, hsh, hsb]

/-- C3 counterexample: with the quality preference "standard" (so no
quality re-rank is triggered), the retrieval result returned to the caller
is not descending by similarity: the expansion loop appended a
similarity-1 product after a similarity-0 one. -/
theorem c3_counterexample_merge_breaks_similarity_order :
    (extractSearchParameters "find speaker for music").qualityPreference = "standard"
    ∧ ¬ List.Chain' (fun a b => b.similarity ≤ a.similarity)
        (enhancedProductRetrieval (searchSimilarProducts c3Rows c3Sim)
          "find speaker for music"
          (analyzeCustomerIntent "find speaker for music")
          (extractSearchParameters "find speaker for music") 5 0) := by
  constructor
  · decide
  · rw [c3_retrieval_eval]
    intro hchain
    have h01 := List.chain'_cons.mp (List.chain'_cons.mp hchain).2
    have : (1:ℚ) ≤ 0 := by
      simpa [mkRankedProduct, c3Row2, c3Row3] using h01.1
    norm_num at this

/-! ## Context quality evaluation (`_evaluate_context_quality`,
`enhanced_rag_service.py`, lines 416-497) -/

/-- The `similarity_stats` sub-dictionary of the nonempty branch. -/
structure SimilarityStats where
  average : ℚ
  maximum : ℚ
  minimum : ℚ
deriving DecidableEq

/-- The `diversity_metrics` sub-dictionary of the nonempty branch. -/
structure DiversityMetrics where
  categoryCount : Nat
  priceSpread : ℚ
deriving DecidableEq

/-- Result of `_evaluate_context_quality`.  The empty-products branch
returns a dictionary without the two statistics keys, modelled with
`Option` fields set to `none`. -/
structure ContextAnalysis where
  sufficientContext : Bool
  confidenceLevel : String
  recommendationStrategy : String
  thoughtProcess : List String
  contextQualityScore : ℚ
  similarityStats : Option SimilarityStats
  diversityMetrics : Option DiversityMetrics
deriving DecidableEq

/-- Rendering of a float inside a diagnostic string.  The Python source
uses `:.2f` formatting; the rational is rendered exactly here, which no
claim inspects. -/
def qRender (q : ℚ) : String := toString q

/-- `_evaluate_context_quality` (lines 416-497).  The float literals 0.15,
0.4 and the price spread cutoff 1000 are the rationals 3/20, 2/5 and 1000.
Note the empty branch (lines 425-433): `confidence_level` is "low" and
`recommendation_strategy` is the literal "clarify_needs". -/
def evaluateContextQuality (query : String) (products : List RankedProduct)
    (intent : IntentAnalysis) : ContextAnalysis :=
  match products with
  | [] =>
    { sufficientContext := false
      confidenceLevel := "low"
      recommendationStrategy := "clarify_needs"
      thoughtProcess := ["No relevant products found in database"]
      contextQualityScore := 0
      similarityStats := none
      diversityMetrics := none }
  | p :: ps =>
    let prods := p :: ps
    let similarities := prods.map (·.similarity)
    let avgSimilarity := similarities.sum / (similarities.length : ℚ)
    let maxSimilarity := ps.foldl (fun m q => max m q.similarity) p.similarity
    let minSimilarity := ps.foldl (fun m q => min m q.similarity) p.similarity
    let thought1 := "Found " ++ toString prods.length ++ " products with similarity range "
      ++ qRender minSimilarity ++ "-" ++ qRender maxSimilarity
    let lowBranch := maxSimilarity < (3/20 : ℚ)
    let midBranch := maxSimilarity < (2/5 : ℚ)
    let sufficientContext := if lowBranch then false else true
    let confidence1 := if lowBranch then "very_low" else if midBranch then "medium" else "high"
    let strategy1 := if lowBranch then "query_clarification" else "confident_recommendation"
    let thought2 :=
      if lowBranch then "Very low similarity scores suggest poor query-product match"
      else if midBranch then "Moderate similarity scores - providing best available matches with confidence"
      else "High similarity scores indicate excellent matches"
    let categoryCount := (pySetList (prods.map (·.category))).length
    let thought3 : Option String :=
      if 3 < categoryCount then
        some ("Results span " ++ toString categoryCount ++ " categories - might need focus")
      else none
    let confidence2 :=
      if 3 < categoryCount ∧ confidence1 = "high" then "medium" else confidence1
    let prices := (prods.map (·.price)).filter (fun x => x ≠ 0)
    let priceSpread : ℚ := match prices with
      | [] => 0
      | q :: qs => (qs.foldl max q) - (qs.foldl min q)
    let thought4 : Option String := match prices with
      | [] => none
      | q :: qs =>
        if 1000 < (qs.foldl max q) - (qs.foldl min q) then
          some "Wide price range in results - customer needs may vary"
        else none
    let cmpShort := intent.primaryIntent = "comparison" ∧ prods.length < 2
    let thought5 : Option String :=
      if cmpShort then
        some "Comparison intent detected but insufficient products for comparison"
      else none
    let strategy2 := if cmpShort then "expand_search" else strategy1
    { sufficientContext := sufficientContext
      confidenceLevel := confidence2
      recommendationStrategy := strategy2
      thoughtProcess := [thought1, thought2] ++ thought3.toList ++ thought4.toList ++ thought5.toList
      contextQualityScore := avgSimilarity
      similarityStats := some ⟨avgSimilarity, maxSimilarity, minSimilarity⟩
      diversityMetrics := some ⟨categoryCount, priceSpread⟩ }

/-- C5 (code bug): for every query and intent, the empty-products branch
returns sufficient_context = false and confidence "low" as claimed, but its
recommendation strategy is the literal "clarify_needs", not the
"query_clarification" the claim names — a label that no downstream
consumer recognises (`_select_system_prompt` and `_build_user_prompt`
compare the strategy against "query_clarification" only). -/
theorem c5_empty_products_strategy_is_clarify_needs :
    ∀ (query : String) (intent : IntentAnalysis),
      (evaluateContextQuality query [] intent).sufficientContext = false
      ∧ (evaluateContextQuality query [] intent).confidenceLevel = "low"
      ∧ (evaluateContextQuality query [] intent).recommendationStrategy = "clarify_needs"
      ∧ (evaluateContextQuality query [] intent).recommendationStrategy ≠ "query_clarification" := by
  intro query intent
  refine ⟨rfl, rfl, rfl, ?_⟩
  show ("clarify_needs" : String) ≠ "query_clarification"
  decide

/-- C7 counterexample: with a comparison intent (the one the analyzer
computes for the query "compare") and the empty product list — which the
claim explicitly includes via "fewer than 2 elements (including the empty
list)" — the strategy is "clarify_needs" from the empty-branch early
return, not "expand_search". -/
theorem c7_counterexample_empty_list_not_expand_search :
    (analyzeCustomerIntent "compare").primaryIntent = "comparison"
    ∧ (evaluateContextQuality "compare" []
        (analyzeCustomerIntent "compare")).recommendationStrategy ≠ "expand_search" := by
  constructor
  · decide
  · show ("clarify_needs" : String) ≠ "expand_search"
    decide

/-- C7 (amended): for every query, every singleton product list and every
intent whose primary intent is "comparison", context evaluation returns
strategy "expand_search" regardless of the similarity score; for the empty
list the empty-products branch returns "clarify_needs" instead (see the
counterexample). -/
theorem c7_amended_single_product_comparison_forces_expand_search :
    ∀ (query : String) (p : RankedProduct) (intent : IntentAnalysis),
      intent.primaryIntent = "comparison" →
      (evaluateContextQuality query [p] intent).recommendationStrategy
        = "expand_search" := by
  intro query p intent h
  show (if intent.primaryIntent = "comparison" ∧ ([p] : List RankedProduct).length < 2
      then "expand_search"
      else if p.similarity < (3/20 : ℚ) then "query_clarification"
      else "confident_recommendation") = "expand_search"
  rw [if_pos ⟨h, by norm_num⟩]

/-- Witness product for the amended C7 theorem. -/
def c7wProduct : RankedProduct :=
  mkRankedProduct
    { productId := 7, name := "Solo Speaker", category := "electronics",
      description := "the only match", price := 30 } (1/2)

/-- Witness for the amended C7 theorem, applied at the query "compare
speakers" with the intent the analyzer itself computes. -/
theorem c7_amended_single_product_comparison_witness :
    (evaluateContextQuality "compare speakers" [c7wProduct]
      (analyzeCustomerIntent "compare speakers")).recommendationStrategy
      = "expand_search" :=
  c7_amended_single_product_comparison_forces_expand_search "compare speakers"
    c7wProduct (analyzeCustomerIntent "compare speakers") (by decide)

/-! ## C8: response-generation failure handling

`rag_service.py`, `_generate_llm_response` (lines 476-514) and
`enhanced_rag_service.py`, `_generate_ollama_response` (lines 531-573) with
`_generate_fallback_response` (lines 671-684).  The HTTP interaction is
modelled by its outcome; the strings are the source literals. -/

/-- Line 480: returned when no OpenRouter client is configured. -/
def llmUnavailableMsg : String :=
  "I\x27m sorry, but our AI assistant is currently unavailable. Please try again later or contact customer support for assistance."

/-- Line 499: returned when the completion content is missing or empty. -/
def llmEmptyContentMsg : String :=
  "I apologize, but I\x27m having trouble generating a response right now. Please try again in a moment."

/-- Line 507: the rate-limit fallback of the RAG service. -/
def rateLimitFallback : String :=
  "I\x27m experiencing high demand right now. Please try again in a minute - I\x27ll be ready to help you find the perfect products!"

/-- Line 511: the API-error fallback of the RAG service. -/
def apiErrorFallback : String :=
  "I\x27m having trouble connecting to our AI service at the moment. Please try again in a few minutes."

/-- Line 514: the generic-failure fallback of the RAG service — a constant
containing no interpolation of the exception text. -/
def genericErrorFallback : String :=
  "I\x27m experiencing some technical difficulties. Please try again shortly, and I\x27ll be happy to help you!"

/-- Outcome of the OpenRouter chat-completions call in
`_generate_llm_response`: no configured client, or content returned
(possibly `None` or empty), or an exception with message `str(e)`. -/
inductive LlmOutcome where
  | noClient : LlmOutcome
  | success (content : Option String) : LlmOutcome
  | failure (errMsg : String) : LlmOutcome

/-- `_generate_llm_response` (lines 476-514) as a function of the call
outcome: the error branch lower-cases `str(e)` and tests the substrings
"rate limit"/"429" first, then "api"/"openrouter", else returns the
generic fallback. -/
def generateLlmResponse (outcome : LlmOutcome) : String :=
  match outcome with
  | .noClient => llmUnavailableMsg
  | .success content =>
    match content with
    | some c => if c = "" then llmEmptyContentMsg else pyStrip c
    | none => llmEmptyContentMsg
  | .failure e =>
    let errStr := pyLower e
    if pyIn "rate limit" errStr || pyIn "429" errStr then rateLimitFallback
    else if pyIn "api" errStr || pyIn "openrouter" errStr then apiErrorFallback
    else genericErrorFallback

/-- `_generate_fallback_response` of the enhanced service (lines 671-684):
the single deterministic fallback used for every Ollama failure. -/
def generateFallbackResponse (query : String) : String :=
  "I\x27d be happy to help you with your search for \"" ++ query ++ "\"! \n        \nWhile I\x27m having some technical difficulties with my AI assistant right now, I can still help you find what you\x27re looking for. \n\nCould you provide a bit more detail about:\n- What specific features you\x27re looking for\n- Your budget range\n- Any brand preferences\n- How you plan to use the product\n\nThis will help me search our product catalog more effectively for you!"

/-- Outcome of the Ollama HTTP call in `_generate_ollama_response` (lines
544-559): an HTTP response with a status code and the parsed `response`
field of its JSON body, or a raised `requests.RequestException`, or any
other exception. -/
inductive OllamaOutcome where
  | http (status : Nat) (responseField : String) : OllamaOutcome
  | requestError (msg : String) : OllamaOutcome
  | otherError (msg : String) : OllamaOutcome

/-- `_generate_ollama_response` (lines 531-573) as a function of the call
outcome: HTTP 200 returns the stripped `response` field; every non-200
status and every exception returns `_generate_fallback_response(query)` —
there is no distinct rate-limit branch in this service. -/
def generateOllamaResponse (query : String) (outcome : OllamaOutcome) : String :=
  match outcome with
  | .http status responseField =>
    if status = 200 then pyStrip responseField
    else generateFallbackResponse query
  | .requestError _ => generateFallbackResponse query
  | .otherError _ => generateFallbackResponse query

/-- C8 counterexample: in the enhanced service, an HTTP 429 (rate-limit)
response from the language backend produces exactly the same user-facing
string as a generic failure — the rate-limit error does not map to a
distinct fallback there. -/
theorem c8_counterexample_enhanced_rate_limit_not_distinct :
    generateOllamaResponse "wireless headphones" (OllamaOutcome.http 429 "")
      = generateOllamaResponse "wireless headphones"
          (OllamaOutcome.otherError "boom") := rfl

/-- C8 (amended): in `rag_service.py` the claim holds — an error whose
text contains "rate limit" or "429" maps to the dedicated rate-limit
fallback, which tells the customer to try again and differs from the
generic fallback, and the generic fallback is one fixed constant carrying
no detail of the exception; but in the enhanced Ollama service all
failures share one fallback (see the counterexample). -/
theorem c8_amended_rag_service_distinct_fallbacks :
    ∀ e : String,
      ((pyIn "rate limit" (pyLower e) || pyIn "429" (pyLower e)) = true →
        generateLlmResponse (LlmOutcome.failure e) = rateLimitFallback)
      ∧ rateLimitFallback ≠ genericErrorFallback
      ∧ pyIn "try again" rateLimitFallback = true
      ∧ ((pyIn "rate limit" (pyLower e) || pyIn "429" (pyLower e)) = false →
         (pyIn "api" (pyLower e) || pyIn "openrouter" (pyLower e)) = false →
         generateLlmResponse (LlmOutcome.failure e) = genericErrorFallback) := by
  intro e
  refine ⟨fun h => ?_, by decide, by decide, fun h1 h2 => ?_⟩
  · simp only [generateLlmResponse, h, if_true]
  · simp only [generateLlmResponse, h1, h2, Bool.false_eq_true, if_false]

/-- Witness for the amended C8 theorem: a concrete 429 error message takes
the rate-limit fallback and a concrete unrelated error message takes the
generic fallback. -/
theorem c8_amended_rag_service_distinct_fallbacks_witness :
    generateLlmResponse (LlmOutcome.failure "Error code: 429 - too many requests")
      = rateLimitFallback
    ∧ rateLimitFallback ≠ genericErrorFallback
    ∧ pyIn "try again" rateLimitFallback = true
    ∧ generateLlmResponse (LlmOutcome.failure "boom") = genericErrorFallback := by
  refine ⟨(c8_amended_rag_service_distinct_fallbacks
      "Error code: 429 - too many requests").1 (by decide),
    (c8_amended_rag_service_distinct_fallbacks "x").2.1,
    (c8_amended_rag_service_distinct_fallbacks "x").2.2.1,
    (c8_amended_rag_service_distinct_fallbacks "boom").2.2.2 (by decide) (by decide)⟩

/-! ## C9: the embedding refresh

`neon_vector_service.py`, `sync_all_products_to_vectors` (lines 75-134)
and `rag_service.py`, `update_product_embeddings` (lines 554-597, which
reports the claim vocabulary `processed/successful/failed`).  The sentence
transformer is external, so embedding creation is the oracle
`encode : String → Except String (List ℚ)` applied to the prepared product
text; a database upsert is pure map update (a database exception, which
would make `store_product_embedding` return `False`, is an external fault
outside the pure model). -/

/-- A catalog product row (`app/models/models.py`, class `Product`): the
fields the embedding sync reads. -/
structure Product where
  id : Nat
  name : String
  category : String
  description : Option String
  brand : Option String
  price : Option ℚ
  tags : Option (List String)
  isActive : Bool
deriving DecidableEq

/-- `_get_price_category` (`neon_vector_service.py`, lines 176-187). -/
def getPriceCategory (price : ℚ) : String :=
  if price < 50 then "budget"
  else if price < 200 then "affordable"
  else if price < 500 then "mid-range"
  else if price < 1000 then "premium"
  else "luxury"

/-- `_prepare_enhanced_product_text` (`neon_vector_service.py`, lines
142-174): name, category, optional brand, optional description stripped
and truncated to 200 characters, optional price with its category.  The
float rendering of the price uses the exact rational. -/
def prepareEnhancedProductText (p : Product) : String :=
  let parts := ["Product: " ++ p.name, "Category: " ++ p.category]
  let parts := parts ++ (match p.brand with
    | some b => ["Brand: " ++ b]
    | none => [])
  let parts := parts ++ (match p.description with
    | some d =>
      let d := pyStrip d
      let d := if 200 < d.length then (String.mk (d.toList.take 200)) ++ "..." else d
      ["Description: " ++ d]
    | none => [])
  let parts := parts ++ (match p.price with
    | some pr => ["Price: $" ++ qRender pr ++ " (" ++ getPriceCategory pr ++ ")"]
    | none => [])
  String.intercalate " | " parts

/-- `_prepare_product_text` (`vector_search_service.py`, lines 54-94):
like the enhanced variant but with the raw description and a tag list (the
string-typed tags branch of the source cannot arise in this model, where
tags are a list). -/
def prepareProductText (p : Product) : String :=
  let parts := ["Product: " ++ p.name, "Category: " ++ p.category]
  let parts := parts ++ (match p.brand with
    | some b => ["Brand: " ++ b]
    | none => [])
  let parts := parts ++ (match p.description with
    | some d => ["Description: " ++ d]
    | none => [])
  let parts := parts ++ (match p.price with
    | some pr => ["Price: $" ++ qRender pr]
    | none => [])
  let parts := parts ++ (match p.tags with
    | some ts => ["Tags: " ++ String.intercalate ", " ts]
    | none => [])
  String.intercalate " | " parts

/-- A row of the embedding store as written by the upsert
(`neon_vector_service.py`, lines 196-220). -/
structure EmbTableRow where
  productId : Nat
  name : String
  category : String
  description : Option String
  price : ℚ
  embedding : List ℚ
  textContent : String
deriving DecidableEq

/-- `store_product_embedding` (lines 189-230): upsert keyed by product id,
last write wins (`ON CONFLICT (product_id) DO UPDATE`); a missing price is
stored as 0.0. -/
def storeProductEmbedding (table : List EmbTableRow) (p : Product)
    (embedding : List ℚ) : List EmbTableRow :=
  let row : EmbTableRow :=
    { productId := p.id, name := p.name, category := p.category,
      description := p.description, price := p.price.getD 0,
      embedding := embedding, textContent := prepareEnhancedProductText p }
  if p.id ∈ table.map (·.productId) then
    table.map (fun r => if r.productId = p.id then row else r)
  else table ++ [row]

/-- Result dictionary of `sync_all_products_to_vectors` (lines 88-93 and
120-126); the no-products dictionary carries no failed/total keys. -/
structure SyncResult where
  success : Bool
  message : String
  syncedCount : Nat
  failedCount : Option Nat
  totalProducts : Option Nat
deriving DecidableEq

/-- One iteration of the sync loop (lines 100-118): embed, upsert, count
success; on an embedding exception count a failure and continue. -/
def syncStep (encode : String → Except String (List ℚ))
    (acc : (Nat × Nat) × List EmbTableRow) (p : Product) :
    (Nat × Nat) × List EmbTableRow :=
  match encode (prepareEnhancedProductText p) with
  | Except.ok emb => ((acc.1.1 + 1, acc.1.2), storeProductEmbedding acc.2 p emb)
  | Except.error _ => ((acc.1.1, acc.1.2 + 1), acc.2)

/-- `sync_all_products_to_vectors` (lines 75-134): query the active
products; if none, an error dictionary; otherwise re-embed and upsert
EVERY active product — the loop contains no check whether a stored
embedding is already current — counting successes and failures. -/
def syncAllProductsToVectors (encode : String → Except String (List ℚ))
    (allProducts : List Product) (table : List EmbTableRow) :
    SyncResult × List EmbTableRow :=
  let products := allProducts.filter (·.isActive)
  if products.isEmpty then
    ({ success := false, message := "No products found in database",
       syncedCount := 0, failedCount := none, totalProducts := none }, table)
  else
    let res := products.foldl (syncStep encode) ((0, 0), table)
    ({ success := true,
       message := "Sync completed: " ++ toString res.1.1 ++ " successful, "
         ++ toString res.1.2 ++ " failed",
       syncedCount := res.1.1, failedCount := some res.1.2,
       totalProducts := some products.length }, res.2)

/-- The statistics dictionary of `update_product_embeddings`
(`rag_service.py`, line 575). -/
structure UpdateStats where
  processed : Nat
  successful : Nat
  failed : Nat
deriving DecidableEq

/-- One iteration of the update loop (`rag_service.py`, lines 577-587):
`processed` is incremented for every product, then embed and upsert, with
per-product failures counted and the loop continuing. -/
def updateStep (encode : String → Except String (List ℚ))
    (acc : UpdateStats × List EmbTableRow) (p : Product) :
    UpdateStats × List EmbTableRow :=
  match encode (prepareProductText p) with
  | Except.ok emb =>
    ({ processed := acc.1.processed + 1, successful := acc.1.successful + 1,
       failed := acc.1.failed }, storeProductEmbedding acc.2 p emb)
  | Except.error _ =>
    ({ processed := acc.1.processed + 1, successful := acc.1.successful,
       failed := acc.1.failed + 1 }, acc.2)

/-- `update_product_embeddings` (`rag_service.py`, lines 554-597): iterate
ALL products, re-embedding and upserting each one — with no
already-current check — and report `{processed, successful, failed}`. -/
def updateProductEmbeddings (encode : String → Except String (List ℚ))
    (allProducts : List Product) (table : List EmbTableRow) :
    UpdateStats × List EmbTableRow :=
  allProducts.foldl (updateStep encode) (⟨0, 0, 0⟩, table)

/-- Counterexample product for C9. -/
def c9Product : Product :=
  { id := 1, name := "USB Cable", category := "electronics",
    description := some "one meter", brand := none, price := some 5,
    tags := none, isActive := true }

/-- Counterexample embedding oracle: every encoding succeeds. -/
def c9Encode : String → Except String (List ℚ) := fun _ => Except.ok [1, 0]

/-- C9 counterexample: running the refresh twice over the unchanged
one-product catalog, the second run reports processed = 1, successful = 1
and failed = 0 — not successful = 0 as the claim states — and likewise the
cited Neon sync reports synced_count = 1 on its second run: nothing is
skipped as already current. -/
theorem c9_counterexample_second_run_reports_all_successful :
    (updateProductEmbeddings c9Encode [c9Product]
        (updateProductEmbeddings c9Encode [c9Product] []).2).1
      = { processed := 1, successful := 1, failed := 0 }
    ∧ (1 : Nat) ≠ 0
    ∧ (syncAllProductsToVectors c9Encode [c9Product]
        (syncAllProductsToVectors c9Encode [c9Product] []).2).1.syncedCount = 1 := by
  exact ⟨rfl, by decide, rfl⟩

/-- Counting invariant of the update loop: when every embedding succeeds,
every product is processed and counted successful. -/
theorem updateLoop_counts (encode : String → Except String (List ℚ)) :
    ∀ (products : List Product) (s : UpdateStats) (t : List EmbTableRow),
      (∀ p ∈ products, ∃ v, encode (prepareProductText p) = Except.ok v) →
      (products.foldl (updateStep encode) (s, t)).1
        = { processed := s.processed + products.length,
            successful := s.successful + products.length,
            failed := s.failed } := by
  intro products
  induction products with
  | nil => intro s t _; simp
  | cons p rest ih =>
    intro s t hok
    obtain ⟨v, hv⟩ := hok p (List.mem_cons_self p rest)
    rw [List.foldl_cons]
    have hstep : updateStep encode (s, t) p
        = ({ processed := s.processed + 1, successful := s.successful + 1,
             failed := s.failed }, storeProductEmbedding t p v) := by
      simp [updateStep, hv]
    rw [hstep, ih _ _ (fun q hq => hok q (List.mem_cons_of_mem p hq))]
    simp only [List.length_cons]
    refine congrArg₂ (fun a b => UpdateStats.mk a b s.failed) ?_ ?_ <;> omega

/-- Counting invariant of the Neon sync loop: when every embedding
succeeds, every product is counted synced and none failed. -/
theorem syncLoop_counts (encode : String → Except String (List ℚ)) :
    ∀ (products : List Product) (c : Nat × Nat) (t : List EmbTableRow),
      (∀ p ∈ products, ∃ v, encode (prepareEnhancedProductText p) = Except.ok v) →
      (products.foldl (syncStep encode) (c, t)).1
        = (c.1 + products.length, c.2) := by
  intro products
  induction products with
  | nil => intro c t _; simp
  | cons p rest ih =>
    intro c t hok
    obtain ⟨v, hv⟩ := hok p (List.mem_cons_self p rest)
    rw [List.foldl_cons]
    have hstep : syncStep encode (c, t) p
        = ((c.1 + 1, c.2), storeProductEmbedding t p v) := by
      simp [syncStep, hv]
    rw [hstep, ih _ _ (fun q hq => hok q (List.mem_cons_of_mem p hq))]
    simp only [List.length_cons]
    refine congrArg₂ Prod.mk ?_ rfl
    omega

/-- C9 (amended): the refresh is not resumable in the claimed sense — on
an unchanged catalog where every embedding call succeeds, EVERY run
(including the second) reports processed = N, successful = N and
failed = 0, because the loop unconditionally re-embeds and upserts each
product; and the cited Neon sync likewise reports synced_count = N and
failed_count = 0 over the N active products on every run.  The stored
state is nevertheless idempotent: the upsert is keyed by product id with
last write wins. -/
theorem c9_amended_refresh_reprocesses_everything :
    ∀ (encode : String → Except String (List ℚ)) (products : List Product)
      (table : List EmbTableRow),
      ((∀ p ∈ products, ∃ v, encode (prepareProductText p) = Except.ok v) →
        (updateProductEmbeddings encode products table).1
          = { processed := products.length, successful := products.length,
              failed := 0 })
      ∧ ((products.filter (·.isActive)).isEmpty = false →
         (∀ p ∈ products.filter (·.isActive),
            ∃ v, encode (prepareEnhancedProductText p) = Except.ok v) →
         (syncAllProductsToVectors encode products table).1.syncedCount
            = (products.filter (·.isActive)).length
         ∧ (syncAllProductsToVectors encode products table).1.failedCount = some 0
         ∧ (syncAllProductsToVectors encode products table).1.totalProducts
            = some (products.filter (·.isActive)).length) := by
  intro encode products table
  constructor
  · intro hok
    have h := updateLoop_counts encode products ⟨0, 0, 0⟩ table hok
    simpa [updateProductEmbeddings] using h
  · intro hne hok
    have h := syncLoop_counts encode (products.filter (·.isActive)) (0, 0) table hok
    simp at h
    refine ⟨?_, ?_, ?_⟩ <;>
      simp [syncAllProductsToVectors, hne, h]

/-- Witness for the amended C9 theorem: a two-product catalog where every
embedding succeeds, with both hypotheses discharged. -/
theorem c9_amended_refresh_reprocesses_everything_witness :
    (updateProductEmbeddings c9Encode [c9Product] []).1
      = { processed := 1, successful := 1, failed := 0 }
    ∧ (syncAllProductsToVectors c9Encode [c9Product] []).1.syncedCount = 1
    ∧ (syncAllProductsToVectors c9Encode [c9Product] []).1.failedCount = some 0
    ∧ (syncAllProductsToVectors c9Encode [c9Product] []).1.totalProducts = some 1 := by
  have h := c9_amended_refresh_reprocesses_everything c9Encode [c9Product] []
  have h1 := h.1 (fun p _ => ⟨[1, 0], rfl⟩)
  have h2 := h.2 (by decide) (fun p _ => ⟨[1, 0], rfl⟩)
  exact ⟨h1, h2.1, h2.2.1, h2.2.2⟩

/-! ## C10: the top-level `generate_ecommerce_response`
(`enhanced_rag_service.py`, lines 49-127) -/

/-- The configured default similarity threshold (line 43): 0.2. -/
def defaultSimilarityThreshold : ℚ := 1/5

/-- `threshold or self.default_similarity_threshold` (line 77): Python
`or` treats both `None` and `0.0` as falsy, so an explicit threshold of
0.0 is replaced by the default as well. -/
def thresholdOrDefault (threshold : Option ℚ) : ℚ :=
  match threshold with
  | none => defaultSimilarityThreshold
  | some t => if t = 0 then defaultSimilarityThreshold else t

/-- The structured result of `generate_ecommerce_response` (lines 101-113
on success, 117-127 on error).  The error dictionary carries no context
analysis, search parameters or thought process, and the success dictionary
carries no error text (modelled with `Option` and a default).  The
wall-clock `processing_time` key is real-time dependent and not
modelled. -/
structure EcommerceResponse where
  success : Bool
  query : String
  intent : String
  products : List RankedProduct
  aiResponse : String
  confidence : ℚ
  contextAnalysis : Option ContextAnalysis
  searchParams : Option SearchParams
  errorText : Option String
  productsFound : Nat
  thoughtProcess : List String
deriving DecidableEq

/-- The seven pipeline steps of `generate_ecommerce_response` (lines
64-97) as fallible functions: a Python exception raised inside a step is
`Except.error` with the exception text.  The concrete services embedded
above are total — each catches its own failures — but the top-level
`try/except Exception` is written to catch a failure raised anywhere in
the pipeline, which is what this parametrisation expresses. -/
structure PipelineSteps where
  analyze : String → Except String IntentAnalysis
  extractParams : String → Except String SearchParams
  retrieve : String → IntentAnalysis → SearchParams → Nat → ℚ →
    Except String (List RankedProduct)
  evaluateCtx : String → List RankedProduct → IntentAnalysis →
    Except String ContextAnalysis
  formatCtx : List RankedProduct → Except String String
  ollama : String → String → IntentAnalysis → ContextAnalysis →
    Except String String
  confidence : List RankedProduct → ContextAnalysis → IntentAnalysis →
    Except String ℚ

/-- The error dictionary of the `except` handler (lines 117-127):
success = False, empty products, the deterministic fallback text,
confidence 0.0, the stringified error. -/
def errorResult (query : String) (e : String) : EcommerceResponse :=
  { success := false, query := query, intent := "unknown", products := [],
    aiResponse := generateFallbackResponse query, confidence := 0,
    contextAnalysis := none, searchParams := none, errorText := some e,
    productsFound := 0, thoughtProcess := [] }

/-- `generate_ecommerce_response` (lines 49-127): the seven steps run in
sequence inside `try`; the first failure anywhere transfers control to the
`except` handler, which returns `errorResult`. -/
def generateEcommerceResponse (steps : PipelineSteps) (query : String)
    (limit : Nat) (threshold : Option ℚ) : EcommerceResponse :=
  match steps.analyze query with
  | Except.error e => errorResult query e
  | Except.ok intentAnalysis =>
    match steps.extractParams query with
    | Except.error e => errorResult query e
    | Except.ok searchParams =>
      match steps.retrieve query intentAnalysis searchParams limit
          (thresholdOrDefault threshold) with
      | Except.error e => errorResult query e
      | Except.ok similarProducts =>
        match steps.evaluateCtx query similarProducts intentAnalysis with
        | Except.error e => errorResult query e
        | Except.ok contextAnalysis =>
          match steps.formatCtx similarProducts with
          | Except.error e => errorResult query e
          | Except.ok productsContext =>
            match steps.ollama query productsContext intentAnalysis contextAnalysis with
            | Except.error e => errorResult query e
            | Except.ok aiResponse =>
              match steps.confidence similarProducts contextAnalysis intentAnalysis with
              | Except.error e => errorResult query e
              | Except.ok confidenceScore =>
                { success := true, query := query,
                  intent := intentAnalysis.primaryIntent,
                  products := similarProducts, aiResponse := aiResponse,
                  confidence := confidenceScore,
                  contextAnalysis := some contextAnalysis,
                  searchParams := some searchParams, errorText := none,
                  productsFound := similarProducts.length,
                  thoughtProcess := contextAnalysis.thoughtProcess }

/-- C10 (confirmed): for every behaviour of the pipeline steps and every
query, limit and threshold, the top-level operation returns a structured
result rather than propagating an error — the function is total — and
whenever any internal step fails the result has success = false, an empty
product list, confidence 0 and the deterministic fallback text for the
query. -/
theorem c10_generate_response_never_raises :
    ∀ (steps : PipelineSteps) (query : String) (limit : Nat)
      (threshold : Option ℚ),
      (generateEcommerceResponse steps query limit threshold).success = true
      ∨ ((generateEcommerceResponse steps query limit threshold).success = false
         ∧ (generateEcommerceResponse steps query limit threshold).products = []
         ∧ (generateEcommerceResponse steps query limit threshold).confidence = 0
         ∧ (generateEcommerceResponse steps query limit threshold).aiResponse
            = generateFallbackResponse query) := by
  intro steps query limit threshold
  unfold generateEcommerceResponse
  cases steps.analyze query with
  | error e => simp [errorResult]
  | ok ia =>
    simp only []
    cases steps.extractParams query with
    | error e => simp [errorResult]
    | ok sp =>
      simp only []
      cases steps.retrieve query ia sp limit (thresholdOrDefault threshold) with
      | error e => simp [errorResult]
      | ok prods =>
        simp only []
        cases steps.evaluateCtx query prods ia with
        | error e => simp [errorResult]
        | ok ctx =>
          simp only []
          cases steps.formatCtx prods with
          | error e => simp [errorResult]
          | ok pctx =>
            simp only []
            cases steps.ollama query pctx ia ctx with
            | error e => simp [errorResult]
            | ok ai =>
              simp only []
              cases steps.confidence prods ctx ia with
              | error e => simp [errorResult]
              | ok conf => simp
